import Mathlib

/-!
Verification development for `turbopack/scripts/analyze_cache_effectiveness.py`.

The script is a single-pass batch tool: it loads per-task cache counters from
a JSON file, applies a fixed cost model to each task, ranks tasks by the
estimated time saved by removing the caching layer, and prints a report.

Modelling choices:
* Python integers are unbounded, so counters are `Int` (non-negativity is a
  hypothesis where a claim needs it).
* Python floor division `//` is `Int.fdiv`.
* `cache_hit_rate` is a true division in Python; it is modelled in `ℚ`.
* JSON task objects are modelled as records of `Option` fields, so that a
  missing key is representable; the loader consumes an association list in
  discovery order, as Python `dict` iteration preserves insertion order.
* Python `list.sort(key=..., reverse=True)` is a stable descending sort; it
  is modelled by `List.mergeSort` with the comparator `b.2 ≤ a.2`.
* Fixed-point rendering (`:.2f`, `:.1f`, `:.1%`) is modelled by rounding the
  exact rational value half-to-even to the requested number of decimals;
  the printed value of the binary double agrees except on representation
  corner cases, which no claim depends on.
-/

/-- One task record, as built by the loader: the dataclass `TaskStats`. -/
structure TaskStats where
  name : String
  cache_hit : Int
  cache_miss : Int
  executions : Int
  duration_ns : Int
deriving Repr, DecidableEq

/-- The `total_operations` property: `cache_hit + cache_miss`. -/
def TaskStats.total_operations (t : TaskStats) : Int :=
  t.cache_hit + t.cache_miss

/-- The `cache_hit_rate` property: `cache_hit / total_operations` as a real
division (modelled in `ℚ`), and `0` when `total_operations == 0`. -/
def TaskStats.cache_hit_rate (t : TaskStats) : ℚ :=
  if t.total_operations = 0 then 0
  else (t.cache_hit : ℚ) / (t.total_operations : ℚ)

/-- The `avg_execution_time_ns` property:
`max(0, (duration_ns - 750 * executions) // executions)`, and `0` when
`executions == 0`.  Python `//` is floor division, hence `Int.fdiv`. -/
def TaskStats.avg_execution_time_ns (t : TaskStats) : Int :=
  if t.executions = 0 then 0
  else max 0 ((t.duration_ns - 750 * t.executions).fdiv t.executions)

/-- `calculate_cache_effectiveness`: signed time savings from removing the
caching layer, `0` when the task has no operations. -/
def calculate_cache_effectiveness (task : TaskStats) : Int :=
  if task.total_operations = 0 then 0
  else
    let cache_hit_cost := task.cache_hit * 500
    let cache_miss_cost := task.cache_miss * (6000 + task.avg_execution_time_ns)
    let current_total_cost := cache_hit_cost + cache_miss_cost
    let no_cache_cost := task.total_operations * task.avg_execution_time_ns
    current_total_cost - no_cache_cost

/-- The JSON `duration` object: `secs` and `nanos` are optional and default
to `0` (Python `dict.get` with default). -/
structure DurationJson where
  secs : Option Int
  nanos : Option Int
deriving Repr, DecidableEq

/-- One per-task JSON value.  Each field is `Option` so that a missing key is
representable; in the script `stats["duration"]` etc. raise `KeyError` when
absent. -/
structure TaskJson where
  duration : Option DurationJson
  cache_hit : Option Int
  cache_miss : Option Int
  executions : Option Int
deriving Repr, DecidableEq

/-- `parse_duration`: `secs * 1_000_000_000 + nanos`, missing sub-fields
defaulting to `0`. -/
def parse_duration (d : DurationJson) : Int :=
  d.secs.getD 0 * 1000000000 + d.nanos.getD 0

/-- Loading of a single task entry.  The script reads `stats["duration"]`
first, then `cache_hit`, `cache_miss`, `executions`; the first missing key
raises `KeyError`, modelled as `Except.error` carrying that key name. -/
def load_task (entry : String × TaskJson) : Except String TaskStats :=
  match entry.2.duration with
  | none => .error "duration"
  | some d =>
    match entry.2.cache_hit with
    | none => .error "cache_hit"
    | some h =>
      match entry.2.cache_miss with
      | none => .error "cache_miss"
      | some m =>
        match entry.2.executions with
        | none => .error "executions"
        | some e => .ok (TaskStats.mk entry.1 h m e (parse_duration d))

/-- `load_task_stats`: iterate the top-level mapping in discovery order,
building one record per entry; the first failing entry aborts the load. -/
def load_task_stats : List (String × TaskJson) → Except String (List TaskStats)
  | [] => .ok []
  | e :: rest => do
    let t ← load_task e
    let ts ← load_task_stats rest
    pure (t :: ts)

/-- The record the loader builds for a well-formed entry (all four required
keys present, duration sub-fields defaulted). -/
def record_of (entry : String × TaskJson) : TaskStats :=
  TaskStats.mk entry.1 (entry.2.cache_hit.getD 0) (entry.2.cache_miss.getD 0)
    (entry.2.executions.getD 0)
    (parse_duration (entry.2.duration.getD (DurationJson.mk none none)))

/-- `analyze_tasks`: pair each record with its savings estimate, then
`results.sort(key=lambda x: x[1], reverse=True)` — a stable descending sort
on the second component, modelled by `mergeSort` with `b.2 ≤ a.2`. -/
def analyze_tasks (tasks : List TaskStats) : List (TaskStats × Int) :=
  (tasks.map fun task => (task, calculate_cache_effectiveness task)).mergeSort
    fun a b => decide (b.2 ≤ a.2)

/-- Round `n / d` to the nearest integer, ties going to the even choice;
this is the default IEEE rounding applied when a fixed-point rendering
truncates the value to a given number of decimals. -/
def roundHalfEvenDiv (n d : Nat) : Nat :=
  let q := n / d
  let r := n % d
  if d < 2 * r then q + 1
  else if 2 * r < d then q
  else if q % 2 = 0 then q else q + 1

/-- The ASCII digit character for `n < 10`. -/
def digitChar (n : Nat) : Char :=
  Char.ofNat (48 + n)

/-- A single decimal digit, as rendered after the point by `:.1f`. -/
def oneDigit (f : Nat) : String :=
  String.mk [digitChar f]

/-- Two decimal digits (zero-padded), as rendered after the point by `:.2f`. -/
def twoDigits (f : Nat) : String :=
  String.mk [digitChar (f / 10), digitChar (f % 10)]

/-- `:.1f` rendering of `a / 1000`: integer part, point, one digit. -/
def fmtFrac1 (a : Nat) : String :=
  let scaled := roundHalfEvenDiv (10 * a) 1000
  toString (scaled / 10) ++ "." ++ oneDigit (scaled % 10)

/-- `:.2f` rendering of `a / scale`: integer part, point, two digits. -/
def fmtFrac2 (a : Nat) (scale : Nat) : String :=
  let scaled := roundHalfEvenDiv (100 * a) scale
  toString (scaled / 100) ++ "." ++ twoDigits (scaled % 100)

/-- `format_time`: sign from the input, unit chosen from the magnitude with
base-1000 thresholds; seconds and milliseconds rendered with `:.2f`,
microseconds with `:.1f`, nanoseconds as a plain integer. -/
def format_time (n : Int) : String :=
  if 1000000000 ≤ n.natAbs then
    (if n < 0 then "-" else "") ++ (fmtFrac2 n.natAbs 1000000000 ++ "s")
  else if 1000000 ≤ n.natAbs then
    (if n < 0 then "-" else "") ++ (fmtFrac2 n.natAbs 1000000 ++ "ms")
  else if 1000 ≤ n.natAbs then
    (if n < 0 then "-" else "") ++ (fmtFrac1 n.natAbs ++ "μs")
  else
    (if n < 0 then "-" else "") ++ (toString n.natAbs ++ "ns")

/-- `:.1%` rendering of a rational: the value times 100 with one decimal
digit and a percent sign. -/
def fmtPercent1 (r : ℚ) : String :=
  let scaled := roundHalfEvenDiv (r.num.natAbs * 1000) r.den
  (if r < 0 then "-" else "") ++
    (toString (scaled / 10) ++ "." ++ oneDigit (scaled % 10) ++ "%")

/-- Three zero-padded decimal digits for a thousands group. -/
def threeDigits (m : Nat) : String :=
  String.mk [digitChar (m / 100), digitChar (m / 10 % 10), digitChar (m % 10)]

/-- Python `f"{n:,}"` on a non-negative integer: decimal digits in groups of
three separated by commas. -/
def thousandsNat (n : Nat) : String :=
  if n < 1000 then toString n
  else thousandsNat (n / 1000) ++ "," ++ threeDigits (n % 1000)
decreasing_by exact Nat.div_lt_self (by omega) (by omega)

/-- Python `f"{n:,}"` on an integer. -/
def thousandsInt (n : Int) : String :=
  (if n < 0 then "-" else "") ++ thousandsNat n.natAbs

/-- Python `f"{s:<w}"`: left-align in a field of width `w`, padding with
spaces on the right. -/
def padRight (w : Nat) (s : String) : String :=
  s ++ String.mk (List.replicate (w - s.length) (Char.ofNat 32))

/-- One report row: savings, hit rate, average execution time, operation
count, task name, in fixed-width columns. -/
def report_row (p : TaskStats × Int) : String :=
  padRight 10 (format_time p.2) ++ " " ++
    padRight 8 (fmtPercent1 p.1.cache_hit_rate) ++ " " ++
    padRight 10 (format_time p.1.avg_execution_time_ns) ++ " " ++
    padRight 10 (thousandsInt p.1.total_operations) ++ " " ++ p.1.name

/-- The report column header line. -/
def report_header : String :=
  padRight 10 "Savings" ++ " " ++ padRight 8 "Hit Rate" ++ " " ++
    padRight 10 "Exec Time" ++ " " ++ padRight 10 "Operations" ++ " " ++
    "Task Name"

/-- `print_analysis`, as the list of printed lines: intro, blank, then for an
empty result list the no-benefit notice; otherwise header, dashed rule, one
row per ranked task, blank, two summary lines, blank, and the legend. -/
def print_analysis (results : List (TaskStats × Int)) : List String :=
  ["Tasks ranked by estimated time savings from removing caching layer", ""]
    ++
    (if results.isEmpty then
      ["No tasks would benefit from removing caching."]
    else
      [report_header,
       String.mk (List.replicate report_header.length (Char.ofNat 45))]
        ++ results.map report_row
        ++ ["",
            "Summary: " ++
              toString (results.countP fun p => decide (0 < p.2)) ++
              " tasks would benefit from removing caching",
            "Total potential savings: " ++
              format_time
                (results.foldr (fun p acc => (if 0 < p.2 then p.2 else 0) + acc) 0),
            "",
            "Legend:",
            "- Savings: Time saved by removing caching layer",
            "- Hit Rate: Percentage of operations that were cache hits",
            "- Exec Time: Average execution time per operation",
            "- Operations: Total number of cache hits + misses"])

/-- The `main` pipeline after JSON decoding, as exit code and printed lines:
a load failure prints a single error line (the `KeyError` key) and exits 1;
otherwise the analysis report is printed and the exit code is 0. -/
def run_main (data : List (String × TaskJson)) : Nat × List String :=
  match load_task_stats data with
  | .error k => (1, ["Error: " ++ k])
  | .ok tasks => (0, print_analysis (analyze_tasks tasks))

/-- C1: for a record with `totalOperations > 0` the analyzer computes
`(cacheHits * 500 + cacheMisses * (6000 + avg)) - totalOperations * avg`,
i.e. current cost with caching minus the hypothetical no-cache cost. -/
theorem savings_eq_current_minus_nocache (t : TaskStats)
    (h : 0 < t.total_operations) :
    calculate_cache_effectiveness t =
      (t.cache_hit * 500 + t.cache_miss * (6000 + t.avg_execution_time_ns))
        - t.total_operations * t.avg_execution_time_ns := by
  unfold calculate_cache_effectiveness
  rw [if_neg (by omega)]

/-- Witness for C1 at the concrete record of spec Scenario B. -/
theorem savings_eq_current_minus_nocache_witness :
    0 < (TaskStats.mk "b" 0 10 10 100000).total_operations ∧
      calculate_cache_effectiveness (TaskStats.mk "b" 0 10 10 100000) =
        ((TaskStats.mk "b" 0 10 10 100000).cache_hit * 500 +
          (TaskStats.mk "b" 0 10 10 100000).cache_miss *
            (6000 + (TaskStats.mk "b" 0 10 10 100000).avg_execution_time_ns))
          - (TaskStats.mk "b" 0 10 10 100000).total_operations *
              (TaskStats.mk "b" 0 10 10 100000).avg_execution_time_ns :=
  ⟨by decide, savings_eq_current_minus_nocache _ (by decide)⟩

/-- C2: a record with no operations gets savings `0`, whatever its other
fields are. -/
theorem savings_zero_of_no_operations (t : TaskStats)
    (h : t.total_operations = 0) :
    calculate_cache_effectiveness t = 0 := by
  unfold calculate_cache_effectiveness
  rw [if_pos h]

/-- Witness for C2: zero operations but nonzero executions and duration. -/
theorem savings_zero_of_no_operations_witness :
    (TaskStats.mk "z" 0 0 7 123456).total_operations = 0 ∧
      calculate_cache_effectiveness (TaskStats.mk "z" 0 0 7 123456) = 0 :=
  ⟨by decide, savings_zero_of_no_operations _ (by decide)⟩

/-- C3: spec Scenario A — 100 hits, no misses, zero executions, zero
duration: the average execution time is 0 (no division by zero) and the
savings are 50000 ns. -/
theorem scenario_a_savings :
    (TaskStats.mk "a" 100 0 0 0).avg_execution_time_ns = 0 ∧
      calculate_cache_effectiveness (TaskStats.mk "a" 100 0 0 0) = 50000 := by
  decide

/-- C4: for a record with non-negative fields, the average execution time is
non-negative; it is `0` when `executions = 0` and otherwise equals the
clamped floor quotient `max 0 ((duration - 750 * executions) fdiv executions)`. -/
theorem avg_execution_time_nonneg (t : TaskStats)
    (hd : 0 ≤ t.duration_ns) (he : 0 ≤ t.executions)
    (hh : 0 ≤ t.cache_hit) (hm : 0 ≤ t.cache_miss) :
    0 ≤ t.avg_execution_time_ns ∧
      (t.executions = 0 → t.avg_execution_time_ns = 0) ∧
      (t.executions ≠ 0 → t.avg_execution_time_ns =
        max 0 ((t.duration_ns - 750 * t.executions).fdiv t.executions)) := by
  refine ⟨?_, ?_, ?_⟩
  · unfold TaskStats.avg_execution_time_ns
    split
    · exact le_refl 0
    · exact le_max_left 0 _
  · intro h
    unfold TaskStats.avg_execution_time_ns
    rw [if_pos h]
  · intro h
    unfold TaskStats.avg_execution_time_ns
    rw [if_neg h]

/-- Witness for C4: duration smaller than the measurement overhead times the
execution count, so the clamp is exercised. -/
theorem avg_execution_time_nonneg_witness :
    0 ≤ (TaskStats.mk "w" 1 2 10 100).avg_execution_time_ns ∧
      ((TaskStats.mk "w" 1 2 10 100).executions ≠ 0 →
        (TaskStats.mk "w" 1 2 10 100).avg_execution_time_ns =
          max 0 (((TaskStats.mk "w" 1 2 10 100).duration_ns -
            750 * (TaskStats.mk "w" 1 2 10 100).executions).fdiv
              (TaskStats.mk "w" 1 2 10 100).executions)) :=
  ⟨(avg_execution_time_nonneg _ (by decide) (by decide) (by decide)
      (by decide)).1,
    (avg_execution_time_nonneg _ (by decide) (by decide) (by decide)
      (by decide)).2.2⟩

/-- C7 counterexample: a record whose lookups were all misses has
`cache_hit_rate = 0` although `total_operations = 5 ≠ 0`, so the hit rate is
not zero exactly when the operation count is zero. -/
theorem hit_rate_zero_despite_operations :
    (TaskStats.mk "c" 0 5 0 0).cache_hit_rate = 0 ∧
      (TaskStats.mk "c" 0 5 0 0).total_operations = 5 := by
  constructor
  · unfold TaskStats.cache_hit_rate
    norm_num [TaskStats.total_operations]
  · decide

/-- C7 amended: for a record with non-negative counters the hit rate lies in
`[0,1]`, and is `0` exactly when `cache_hit = 0` (not exactly when
`total_operations = 0`). -/
theorem hit_rate_bounds (t : TaskStats)
    (hh : 0 ≤ t.cache_hit) (hm : 0 ≤ t.cache_miss) :
    0 ≤ t.cache_hit_rate ∧ t.cache_hit_rate ≤ 1 ∧
      (t.cache_hit_rate = 0 ↔ t.cache_hit = 0) := by
  unfold TaskStats.cache_hit_rate
  by_cases h0 : t.total_operations = 0
  · rw [if_pos h0]
    refine ⟨le_refl 0, zero_le_one, ?_⟩
    unfold TaskStats.total_operations at h0
    constructor
    · intro _; omega
    · intro _; rfl
  · rw [if_neg h0]
    have hpos : (0 : Int) < t.total_operations := by
      unfold TaskStats.total_operations at h0 ⊢
      omega
    have hposq : (0 : ℚ) < (t.total_operations : ℚ) := by
      exact_mod_cast hpos
    have hhq : (0 : ℚ) ≤ (t.cache_hit : ℚ) := by exact_mod_cast hh
    refine ⟨div_nonneg hhq (le_of_lt hposq), ?_, ?_⟩
    · rw [div_le_one hposq]
      have : t.cache_hit ≤ t.total_operations := by
        unfold TaskStats.total_operations
        omega
      exact_mod_cast this
    · rw [div_eq_zero_iff]
      constructor
      · intro hc
        rcases hc with hc | hc
        · exact_mod_cast hc
        · exact absurd hc (ne_of_gt hposq)
      · intro hc
        left
        exact_mod_cast hc

/-- Witness for C7 amended at a record with hits and misses. -/
theorem hit_rate_bounds_witness :
    0 ≤ (TaskStats.mk "h" 3 1 0 0).cache_hit_rate ∧
      (TaskStats.mk "h" 3 1 0 0).cache_hit_rate ≤ 1 ∧
      ((TaskStats.mk "h" 3 1 0 0).cache_hit_rate = 0 ↔
        (TaskStats.mk "h" 3 1 0 0).cache_hit = 0) :=
  hit_rate_bounds _ (by decide) (by decide)

/-- On entries whose four required keys are all present, the loader succeeds
and returns exactly the mapped records, in order. -/
theorem load_task_stats_eq_map (data : List (String × TaskJson))
    (h : ∀ e ∈ data, e.2.duration.isSome ∧ e.2.cache_hit.isSome ∧
      e.2.cache_miss.isSome ∧ e.2.executions.isSome) :
    load_task_stats data = .ok (data.map record_of) := by
  induction data with
  | nil => rfl
  | cons e rest ih =>
    obtain ⟨n, od, oh, om, ox⟩ := e
    obtain ⟨hd, hh, hm, hx⟩ :=
      h (n, TaskJson.mk od oh om ox) (List.mem_cons_self _ _)
    have ihr := ih (fun x hx => h x (List.mem_cons_of_mem _ hx))
    cases od with
    | none => simp at hd
    | some d =>
      cases oh with
      | none => simp at hh
      | some ch =>
        cases om with
        | none => simp at hm
        | some cm =>
          cases ox with
          | none => simp at hx
          | some ex =>
            simp only [load_task_stats, ihr]
            rfl

/-- C6: loading a well-formed mapping with `N` entries yields exactly `N`
records, one per key in discovery order; each record's name is the key,
its counters equal the input fields, and its duration is
`secs * 1_000_000_000 + nanos` with missing sub-fields defaulting to `0`. -/
theorem load_roundtrip (data : List (String × TaskJson))
    (h : ∀ e ∈ data, e.2.duration.isSome ∧ e.2.cache_hit.isSome ∧
      e.2.cache_miss.isSome ∧ e.2.executions.isSome) :
    ∃ tasks, load_task_stats data = .ok tasks ∧
      tasks.length = data.length ∧
      ∀ i (hi : i < tasks.length) (hj : i < data.length),
        (tasks.get ⟨i, hi⟩).name = (data.get ⟨i, hj⟩).1 ∧
        (tasks.get ⟨i, hi⟩).cache_hit = (data.get ⟨i, hj⟩).2.cache_hit.getD 0 ∧
        (tasks.get ⟨i, hi⟩).cache_miss = (data.get ⟨i, hj⟩).2.cache_miss.getD 0 ∧
        (tasks.get ⟨i, hi⟩).executions = (data.get ⟨i, hj⟩).2.executions.getD 0 ∧
        (tasks.get ⟨i, hi⟩).duration_ns =
          ((data.get ⟨i, hj⟩).2.duration.getD (DurationJson.mk none none)).secs.getD 0
              * 1000000000 +
            ((data.get ⟨i, hj⟩).2.duration.getD (DurationJson.mk none none)).nanos.getD 0 := by
  refine ⟨data.map record_of, load_task_stats_eq_map data h, by simp, ?_⟩
  intro i hi hj
  simp [List.get_eq_getElem, record_of, parse_duration]

/-- Witness for C6 at a two-entry mapping, one entry with both duration
sub-fields missing. -/
theorem load_roundtrip_witness :
    ∃ tasks,
      load_task_stats
        [("t1", TaskJson.mk (some (DurationJson.mk (some 2) (some 5))) (some 3)
            (some 4) (some 4)),
         ("t2", TaskJson.mk (some (DurationJson.mk none none)) (some 0) (some 0)
            (some 0))] = .ok tasks ∧
      tasks.length =
        [("t1", TaskJson.mk (some (DurationJson.mk (some 2) (some 5))) (some 3)
            (some 4) (some 4)),
         ("t2", TaskJson.mk (some (DurationJson.mk none none)) (some 0) (some 0)
            (some 0))].length ∧
      ∀ i (hi : i < tasks.length) (hj : i <
        [("t1", TaskJson.mk (some (DurationJson.mk (some 2) (some 5))) (some 3)
            (some 4) (some 4)),
         ("t2", TaskJson.mk (some (DurationJson.mk none none)) (some 0) (some 0)
            (some 0))].length),
        (tasks.get ⟨i, hi⟩).name =
          ([("t1", TaskJson.mk (some (DurationJson.mk (some 2) (some 5))) (some 3)
              (some 4) (some 4)),
            ("t2", TaskJson.mk (some (DurationJson.mk none none)) (some 0) (some 0)
              (some 0))].get ⟨i, hj⟩).1 ∧
        (tasks.get ⟨i, hi⟩).cache_hit =
          ([("t1", TaskJson.mk (some (DurationJson.mk (some 2) (some 5))) (some 3)
              (some 4) (some 4)),
            ("t2", TaskJson.mk (some (DurationJson.mk none none)) (some 0) (some 0)
              (some 0))].get ⟨i, hj⟩).2.cache_hit.getD 0 ∧
        (tasks.get ⟨i, hi⟩).cache_miss =
          ([("t1", TaskJson.mk (some (DurationJson.mk (some 2) (some 5))) (some 3)
              (some 4) (some 4)),
            ("t2", TaskJson.mk (some (DurationJson.mk none none)) (some 0) (some 0)
              (some 0))].get ⟨i, hj⟩).2.cache_miss.getD 0 ∧
        (tasks.get ⟨i, hi⟩).executions =
          ([("t1", TaskJson.mk (some (DurationJson.mk (some 2) (some 5))) (some 3)
              (some 4) (some 4)),
            ("t2", TaskJson.mk (some (DurationJson.mk none none)) (some 0) (some 0)
              (some 0))].get ⟨i, hj⟩).2.executions.getD 0 ∧
        (tasks.get ⟨i, hi⟩).duration_ns =
          (([("t1", TaskJson.mk (some (DurationJson.mk (some 2) (some 5))) (some 3)
              (some 4) (some 4)),
            ("t2", TaskJson.mk (some (DurationJson.mk none none)) (some 0) (some 0)
              (some 0))].get ⟨i, hj⟩).2.duration.getD
                (DurationJson.mk none none)).secs.getD 0 * 1000000000 +
            (([("t1", TaskJson.mk (some (DurationJson.mk (some 2) (some 5))) (some 3)
                (some 4) (some 4)),
              ("t2", TaskJson.mk (some (DurationJson.mk none none)) (some 0) (some 0)
                (some 0))].get ⟨i, hj⟩).2.duration.getD
                  (DurationJson.mk none none)).nanos.getD 0 :=
  load_roundtrip _ (by decide)

/-- The descending-savings comparator is transitive. -/
theorem desc_savings_trans (a b c : TaskStats × Int)
    (hab : decide (b.2 ≤ a.2) = true) (hbc : decide (c.2 ≤ b.2) = true) :
    decide (c.2 ≤ a.2) = true := by
  simp only [decide_eq_true_eq] at hab hbc ⊢
  exact le_trans hbc hab

/-- The descending-savings comparator is total. -/
theorem desc_savings_total (a b : TaskStats × Int) :
    (decide (b.2 ≤ a.2) || decide (a.2 ≤ b.2)) = true := by
  simp only [Bool.or_eq_true, decide_eq_true_eq]
  exact le_total b.2 a.2

/-- C5: the ranked output is a permutation of the (record, savings) pairs of
the input, and the savings are monotonically non-increasing along it. -/
theorem analyze_tasks_perm_and_sorted (tasks : List TaskStats) :
    (analyze_tasks tasks).Perm
        (tasks.map fun t => (t, calculate_cache_effectiveness t)) ∧
      (analyze_tasks tasks).Pairwise (fun a b => b.2 ≤ a.2) := by
  constructor
  · exact List.mergeSort_perm _ _
  · have h : ((tasks.map fun t => (t, calculate_cache_effectiveness t)).mergeSort
        (fun a b => decide (b.2 ≤ a.2))).Pairwise
          (fun a b => decide (b.2 ≤ a.2) = true) :=
      List.sorted_mergeSort desc_savings_trans desc_savings_total _
    exact h.imp (fun hab => of_decide_eq_true hab)

/-- C10: ties keep their input order — restricting the ranked output to any
fixed savings value gives exactly the input pairs with that value, in input
order; the sort is stable. -/
theorem analyze_tasks_stable (tasks : List TaskStats) (v : Int) :
    (analyze_tasks tasks).filter (fun p => decide (p.2 = v)) =
      (tasks.map fun t => (t, calculate_cache_effectiveness t)).filter
        (fun p => decide (p.2 = v)) := by
  have hsub : List.Sublist
      ((tasks.map fun t => (t, calculate_cache_effectiveness t)).filter
        (fun p => decide (p.2 = v)))
      (tasks.map fun t => (t, calculate_cache_effectiveness t)) :=
    List.filter_sublist _
  have hval : ∀ q ∈ (tasks.map fun t => (t, calculate_cache_effectiveness t)).filter
      (fun p => decide (p.2 = v)), q.2 = v :=
    fun q hq => of_decide_eq_true (List.mem_filter.mp hq).2
  have hpw : ((tasks.map fun t => (t, calculate_cache_effectiveness t)).filter
      (fun p => decide (p.2 = v))).Pairwise
        (fun a b => decide (b.2 ≤ a.2) = true) := by
    refine List.pairwise_of_forall_mem_list ?_
    intro a ha b hb
    rw [hval a ha, hval b hb]
    simp
  have hs : List.Sublist
      ((tasks.map fun t => (t, calculate_cache_effectiveness t)).filter
        (fun p => decide (p.2 = v)))
      (analyze_tasks tasks) :=
    List.sublist_mergeSort desc_savings_trans desc_savings_total hpw hsub
  have hs2 : List.Sublist
      ((tasks.map fun t => (t, calculate_cache_effectiveness t)).filter
        (fun p => decide (p.2 = v)))
      ((analyze_tasks tasks).filter (fun p => decide (p.2 = v))) := by
    have h2 := hs.filter (fun p => decide (p.2 = v))
    simpa [List.filter_filter] using h2
  have hperm : ((analyze_tasks tasks).filter (fun p => decide (p.2 = v))).Perm
      ((tasks.map fun t => (t, calculate_cache_effectiveness t)).filter
        (fun p => decide (p.2 = v))) :=
    (List.mergeSort_perm _ _).filter _
  exact (List.Sublist.eq_of_length hs2 hperm.length_eq.symm).symm

/-- A task entry missing one of the three required counter keys always fails
to load (possibly reporting the `duration` key first, which the script reads
before the counters). -/
theorem load_task_error_of_missing (e : String × TaskJson)
    (h : e.2.cache_hit = none ∨ e.2.cache_miss = none ∨ e.2.executions = none) :
    ∃ k, load_task e = .error k := by
  obtain ⟨n, od, oh, om, ox⟩ := e
  cases od <;> cases oh <;> cases om <;> cases ox <;>
    first
      | exact ⟨"duration", rfl⟩
      | exact ⟨"cache_hit", rfl⟩
      | exact ⟨"cache_miss", rfl⟩
      | exact ⟨"executions", rfl⟩
      | simp at h

/-- If any entry of the mapping lacks a required counter key, the whole load
fails. -/
theorem load_task_stats_error (data : List (String × TaskJson))
    (h : ∃ e ∈ data, e.2.cache_hit = none ∨ e.2.cache_miss = none ∨
      e.2.executions = none) :
    ∃ k, load_task_stats data = .error k := by
  induction data with
  | nil => simp at h
  | cons e rest ih =>
    by_cases hbad : e.2.cache_hit = none ∨ e.2.cache_miss = none ∨
        e.2.executions = none
    · obtain ⟨k, hk⟩ := load_task_error_of_missing e hbad
      refine ⟨k, ?_⟩
      simp only [load_task_stats, hk]
      rfl
    · obtain ⟨e2, he2, hb2⟩ := h
      rcases List.mem_cons.mp he2 with rfl | hmem
      · exact absurd hb2 hbad
      · obtain ⟨k, hk⟩ := ih ⟨e2, hmem, hb2⟩
        cases hle : load_task e with
        | error s =>
          refine ⟨s, ?_⟩
          simp only [load_task_stats, hle]
          rfl
        | ok t =>
          refine ⟨k, ?_⟩
          simp only [load_task_stats, hle, hk]
          rfl

/-- C8: a mapping with an entry lacking `cache_hit`, `cache_miss` or
`executions` makes the run exit with code 1 and print exactly one error
line — no report output. -/
theorem missing_key_exits_one (data : List (String × TaskJson))
    (h : ∃ e ∈ data, e.2.cache_hit = none ∨ e.2.cache_miss = none ∨
      e.2.executions = none) :
    ∃ k, run_main data = (1, ["Error: " ++ k]) := by
  obtain ⟨k, hk⟩ := load_task_stats_error data h
  refine ⟨k, ?_⟩
  simp only [run_main, hk]

/-- Witness for C8: a mapping whose sole entry lacks `cache_hit`. -/
theorem missing_key_exits_one_witness :
    ∃ k, run_main
      [("t", TaskJson.mk (some (DurationJson.mk (some 0) (some 0))) none
        (some 1) (some 1))] = (1, ["Error: " ++ k]) :=
  missing_key_exits_one _ (by decide)

/-- C9 counterexample: 1500 ns is rendered as `1.5μs` — microseconds get one
decimal digit (`:.1f`), not the two decimal places the claim states. -/
theorem format_time_micro_one_decimal :
    format_time 1500 = "1.5μs" ∧ format_time 1500 ≠ "1.50μs" := by
  constructor
  · decide
  · decide

/-- C9 amended: the formatter picks its unit at base-1000 thresholds
(1e3/1e6/1e9 ns), prefixes `-` for negative magnitudes, renders nanoseconds
as a plain integer, microseconds with one decimal digit, and milliseconds
and seconds with two decimal digits. -/
theorem format_time_units (n : Int) :
    (n < 0 → format_time n = "-" ++ format_time (-n)) ∧
    (0 ≤ n → n < 1000 → format_time n = toString n.natAbs ++ "ns") ∧
    (0 ≤ n → 1000 ≤ n → n < 1000000 → ∃ i f, f < 10 ∧
      10 * i + f = roundHalfEvenDiv (10 * n.natAbs) 1000 ∧
      format_time n = toString i ++ "." ++ oneDigit f ++ "μs" ∧
      (oneDigit f).length = 1) ∧
    (0 ≤ n → 1000000 ≤ n → n < 1000000000 → ∃ i f, f < 100 ∧
      100 * i + f = roundHalfEvenDiv (100 * n.natAbs) 1000000 ∧
      format_time n = toString i ++ "." ++ twoDigits f ++ "ms" ∧
      (twoDigits f).length = 2) ∧
    (0 ≤ n → 1000000000 ≤ n → ∃ i f, f < 100 ∧
      100 * i + f = roundHalfEvenDiv (100 * n.natAbs) 1000000000 ∧
      format_time n = toString i ++ "." ++ twoDigits f ++ "s" ∧
      (twoDigits f).length = 2) := by
  refine ⟨?_, ?_, ?_, ?_, ?_⟩
  · intro hneg
    have h2 : ¬ (-n < 0) := by omega
    unfold format_time
    rw [Int.natAbs_neg]
    split_ifs <;> first | rfl | omega
  · intro h0 h1
    have hc1 : ¬ (1000000000 ≤ n.natAbs) := by omega
    have hc2 : ¬ (1000000 ≤ n.natAbs) := by omega
    have hc3 : ¬ (1000 ≤ n.natAbs) := by omega
    have hs : ¬ n < 0 := by omega
    unfold format_time
    rw [if_neg hc1, if_neg hc2, if_neg hc3, if_neg hs]
    rfl
  · intro h0 h1 h2
    have hc1 : ¬ (1000000000 ≤ n.natAbs) := by omega
    have hc2 : ¬ (1000000 ≤ n.natAbs) := by omega
    have hc3 : 1000 ≤ n.natAbs := by omega
    have hs : ¬ n < 0 := by omega
    refine ⟨roundHalfEvenDiv (10 * n.natAbs) 1000 / 10,
      roundHalfEvenDiv (10 * n.natAbs) 1000 % 10,
      Nat.mod_lt _ (by omega), Nat.div_add_mod _ 10, ?_, rfl⟩
    unfold format_time
    rw [if_neg hc1, if_neg hc2, if_pos hc3, if_neg hs]
    rfl
  · intro h0 h1 h2
    have hc1 : ¬ (1000000000 ≤ n.natAbs) := by omega
    have hc2 : 1000000 ≤ n.natAbs := by omega
    have hs : ¬ n < 0 := by omega
    refine ⟨roundHalfEvenDiv (100 * n.natAbs) 1000000 / 100,
      roundHalfEvenDiv (100 * n.natAbs) 1000000 % 100,
      Nat.mod_lt _ (by omega), Nat.div_add_mod _ 100, ?_, rfl⟩
    unfold format_time
    rw [if_neg hc1, if_pos hc2, if_neg hs]
    rfl
  · intro h0 h1
    have hc1 : 1000000000 ≤ n.natAbs := by omega
    have hs : ¬ n < 0 := by omega
    refine ⟨roundHalfEvenDiv (100 * n.natAbs) 1000000000 / 100,
      roundHalfEvenDiv (100 * n.natAbs) 1000000000 % 100,
      Nat.mod_lt _ (by omega), Nat.div_add_mod _ 100, ?_, rfl⟩
    unfold format_time
    rw [if_pos hc1, if_neg hs]
    rfl

/-- Witness for C9 amended: the sign, nanosecond and microsecond branches at
concrete inputs. -/
theorem format_time_units_witness :
    format_time (-2500000) = "-" ++ format_time 2500000 ∧
      format_time 999 = toString (999 : Int).natAbs ++ "ns" ∧
      ∃ i f, f < 10 ∧
        10 * i + f = roundHalfEvenDiv (10 * (1500 : Int).natAbs) 1000 ∧
        format_time 1500 = toString i ++ "." ++ oneDigit f ++ "μs" ∧
        (oneDigit f).length = 1 :=
  ⟨(format_time_units (-2500000)).1 (by decide),
    (format_time_units 999).2.1 (by decide) (by decide),
    (format_time_units 1500).2.2.1 (by decide) (by decide) (by decide)⟩
